import Mathlib

/-!
# Verification of the cticker runtime / view-state engine

Shallow embedding of the state and decision logic of `cticker` (a terminal
cryptocurrency price board with a candlestick chart view), translated from
the C sources:

* `src/priceboard.c` — snapshot sorting, sort cycling, selection clamping
* `src/ui_priceboard.c` — scroll viewport computation in `draw_main_screen`
* `src/chart.c` — chart open/close, cursor handling, period change,
  refresh-and-reconcile, live price overlay, input dispatch
* `src/main.c` — the render pass of `run_event_loop`
* `src/fetcher.c` — the fetch-and-publish cycle

Modelling conventions:

* C `double` price fields are modelled as `Int`.  All claims under study
  depend only on the order/equality structure of these fields (comparisons
  and exact ties), which a linear order preserves; no floating-point
  rounding behaviour is claimed.
* C `int` counters and indices stay `Int` (they may legitimately be `-1`).
* The external collaborators (`fetch_ticker_data`, `fetch_historical_data`,
  wall-clock `time(NULL)`, and the ncurses hit-test geometry) are passed in
  as explicit parameters: a candle fetch result is
  `Option (List PricePoint)` (`none` = non-zero return code, `some pts` =
  success, with the returned `count` equal to the buffer length, as the API
  contract in `cticker.h` states).
* `beep()` and drawing calls are I/O with no effect on the modelled state
  and are dropped (noted where they occur in the source).
-/

namespace CTicker

/-! ## Data model (`src/cticker.h`) -/
/-- `TickerData` from `cticker.h`.  `double` fields are modelled as `Int`
(order-preserving model of real-valued prices); `char[]` fields as
`String`. -/
structure TickerData where
  symbol : String
  price : Int
  change_24h : Int
  high_price : Int
  low_price : Int
  volume_base : Int
  volume_quote : Int
  trade_count : Int
  timestamp : Nat
  price_text : String
  high_text : String
  low_text : String
deriving DecidableEq, Repr

/-- `PricePoint` from `cticker.h` (one OHLC candle).  The C field `open` is
called `open_price` here because `open` is a reserved word in Lean; all
other field names match the source. -/
structure PricePoint where
  timestamp : Nat
  close_time : Nat
  open_price : Int
  high : Int
  low : Int
  close : Int
  volume : Int
  quote_volume : Int
  trade_count : Int
  taker_buy_base_volume : Int
  taker_buy_quote_volume : Int
  open_text : String
  high_text : String
  low_text : String
  close_text : String
deriving DecidableEq, Repr

/-- `Period` enum from `cticker.h` (the `PERIOD_COUNT` sentinel is kept as
the separate constant `PERIOD_COUNT`). -/
inductive Period where
  | PERIOD_1MIN
  | PERIOD_15MIN
  | PERIOD_1HOUR
  | PERIOD_4HOUR
  | PERIOD_1DAY
  | PERIOD_1WEEK
  | PERIOD_1MONTH
deriving DecidableEq, Repr

/-- Number of supported periods (`PERIOD_COUNT` sentinel value). -/
def PERIOD_COUNT : Int := 7

/-- The integer value of a `Period` enumerator (C enum value). -/
def Period.toInt : Period → Int
  | .PERIOD_1MIN => 0
  | .PERIOD_15MIN => 1
  | .PERIOD_1HOUR => 2
  | .PERIOD_4HOUR => 3
  | .PERIOD_1DAY => 4
  | .PERIOD_1WEEK => 5
  | .PERIOD_1MONTH => 6

/-- Interpret an in-range integer as a `Period` (the C cast `(Period)next`;
only ever applied to values in `[0, PERIOD_COUNT)`). -/
def Period.ofInt : Int → Period
  | 0 => .PERIOD_1MIN
  | 1 => .PERIOD_15MIN
  | 2 => .PERIOD_1HOUR
  | 3 => .PERIOD_4HOUR
  | 4 => .PERIOD_1DAY
  | 5 => .PERIOD_1WEEK
  | _ => .PERIOD_1MONTH

/-- `StatusPanelState` enum from `cticker.h`. -/
inductive StatusPanelState where
  | STATUS_PANEL_NORMAL
  | STATUS_PANEL_FETCHING
  | STATUS_PANEL_NETWORK_ERROR
deriving DecidableEq, Repr

/-! ## Price board sorting (`src/priceboard.c`) -/
/-- `PriceboardSortField` from `priceboard.h`. -/
inductive PriceboardSortField where
  | SORT_FIELD_DEFAULT
  | SORT_FIELD_PRICE
  | SORT_FIELD_CHANGE
deriving DecidableEq, Repr, Fintype

/-- `PriceboardSortDirection` from `priceboard.c`. -/
inductive PriceboardSortDirection where
  | SORT_DIR_DESC
  | SORT_DIR_ASC
deriving DecidableEq, Repr, Fintype

/-- The two static sort-state variables of `priceboard.c`
(`current_sort_field`, `current_sort_direction`) bundled into one record. -/
structure SortState where
  current_sort_field : PriceboardSortField
  current_sort_direction : PriceboardSortDirection
deriving DecidableEq, Repr, Fintype

/-- `priceboard_sort_value`: extract the numeric field used by the current
sort (0.0 for the default field). -/
def priceboard_sort_value (row : TickerData) (field : PriceboardSortField) : Int :=
  match field with
  | .SORT_FIELD_PRICE => row.price
  | .SORT_FIELD_CHANGE => row.change_24h
  | .SORT_FIELD_DEFAULT => 0

/-- One snapshot row together with its entry in the parallel
`ticker_snapshot_order` array (the original Config index).  The C code
swaps the two arrays in lockstep (`priceboard_swap_rows`), so a list of
pairs is a faithful model of the pair of parallel arrays. -/
structure SnapRow where
  row : TickerData
  origin : Int
deriving DecidableEq, Repr

/-- Three-way comparison producing `-1`/`0`/`1`, mirroring the
`if (a < b) ... else if (a > b) ...` pattern used twice inside
`priceboard_compare_rows`. -/
def cmp3 (x y : Int) : Int :=
  if x < y then -1 else if x > y then 1 else 0

/-- `priceboard_compare_rows`: compare the sort-field values; on an exact
tie compare the original Config indices; if the direction is Desc, negate
the final result (note: the negation applies to the tie-break as well, as
in the source). -/
def priceboard_compare_rows (st : SortState) (lhs rhs : SnapRow) : Int :=
  let lhs_val := priceboard_sort_value lhs.row st.current_sort_field
  let rhs_val := priceboard_sort_value rhs.row st.current_sort_field
  let result := cmp3 lhs_val rhs_val
  let result := if result = 0 then cmp3 lhs.origin rhs.origin else result
  if st.current_sort_direction = .SORT_DIR_DESC then -result else result

/-- The inner `while (j > 0 && priceboard_compare_rows(ctx, j-1, j) > 0)`
loop of `priceboard_apply_sort`: the element `x` (at position `j`) bubbles
left past every predecessor that compares greater than it.  `rev` is the
already-sorted prefix to the left of `x`, kept in reverse order (its head
is the element at `j - 1`); the returned list is the new prefix including
`x`, again reversed. -/
def priceboard_insert_row (st : SortState) : List SnapRow → SnapRow → List SnapRow
  | [], x => [x]
  | y :: rev, x =>
      if priceboard_compare_rows st y x > 0 then
        y :: priceboard_insert_row st rev x
      else
        x :: y :: rev

/-- The outer `for (i = 1; i < count; ++i)` loop of
`priceboard_apply_sort`: process the remaining elements left to right,
carrying the sorted prefix in reverse in `rev`.  (The first iteration with
the singleton prefix `[a0]` is subsumed by inserting `a0` into the empty
prefix.) -/
def priceboard_sort_loop (st : SortState) : List SnapRow → List SnapRow → List SnapRow
  | rev, [] => rev.reverse
  | rev, x :: rest => priceboard_sort_loop st (priceboard_insert_row st rev x) rest

/-- `priceboard_apply_sort`: insertion sort of the snapshot, a no-op when
`count <= 1` or no sort field is active. -/
def priceboard_apply_sort (st : SortState) (snap : List SnapRow) : List SnapRow :=
  if snap.length ≤ 1 then snap
  else if st.current_sort_field = .SORT_FIELD_DEFAULT then snap
  else priceboard_sort_loop st [] snap

/-- The snapshot preparation step of `priceboard_render`: copy the rows and
initialize `ticker_snapshot_order[i] = i`. -/
def mkSnapshot (rows : List TickerData) : List SnapRow :=
  rows.enum.map fun p => ⟨p.2, (p.1 : Int)⟩

/-! ### Insertion sort correctness -/
/-- The relation "sorted before": comparator result non-positive. -/
def cmpLE (st : SortState) (a b : SnapRow) : Prop :=
  priceboard_compare_rows st a b ≤ 0

/-- Rows used by the sort-stability instances: two rows with the same price. -/
def tickerRowEqA : TickerData :=
  ⟨"AAAUSDT", 100, 5, 0, 0, 0, 0, 0, 0, "", "", ""⟩

/-- Second row with the same price as `tickerRowEqA`. -/
def tickerRowEqB : TickerData :=
  ⟨"BBBUSDT", 100, 7, 0, 0, 0, 0, 0, 0, "", "", ""⟩

/-! ## Sort cycling (`priceboard_cycle_sort`, `src/priceboard.c`) -/
/-- `priceboard_cycle_sort`: pressing the hot-key for a field cycles
inactive → Desc → Asc → inactive; pressing it while the *other* field is
active takes over immediately (active, Desc). -/
def priceboard_cycle_sort (field : PriceboardSortField) (st : SortState) : SortState :=
  if field = .SORT_FIELD_PRICE then
    if st.current_sort_field ≠ .SORT_FIELD_PRICE then
      ⟨.SORT_FIELD_PRICE, .SORT_DIR_DESC⟩
    else if st.current_sort_direction = .SORT_DIR_DESC then
      ⟨st.current_sort_field, .SORT_DIR_ASC⟩
    else
      ⟨.SORT_FIELD_DEFAULT, .SORT_DIR_DESC⟩
  else if field = .SORT_FIELD_CHANGE then
    if st.current_sort_field ≠ .SORT_FIELD_CHANGE then
      ⟨.SORT_FIELD_CHANGE, .SORT_DIR_DESC⟩
    else if st.current_sort_direction = .SORT_DIR_DESC then
      ⟨st.current_sort_field, .SORT_DIR_ASC⟩
    else
      ⟨.SORT_FIELD_DEFAULT, .SORT_DIR_DESC⟩
  else
    st

/-! ## Price board viewport (`draw_main_screen`, `src/ui_priceboard.c`) -/
/-- The viewport computation of `draw_main_screen`
(`src/ui_priceboard.c`, the "Compute and clamp the viewport window"
block): clamp `selected` into `[0, count-1]`, clamp the persistent scroll
offset to `max_scroll = max(0, count - visible_rows)`, pull the offset down
to `selected` if the selection is above it, push it up so the selection is
the last visible row if at/beyond the window, and finally floor the offset
at 0.  Returns `(offset, clamped selected)`. -/
def draw_main_screen_viewport (count visible_rows scroll_offset selected : Int) :
    Int × Int :=
  if count ≤ 0 then
    (0, selected)
  else
    let selected := if selected < 0 then 0
      else if selected ≥ count then count - 1 else selected
    let max_scroll := count - visible_rows
    let max_scroll := if max_scroll < 0 then 0 else max_scroll
    let offset := if scroll_offset > max_scroll then max_scroll else scroll_offset
    let offset := if selected < offset then selected
      else if selected ≥ offset + visible_rows then selected - visible_rows + 1
      else offset
    let offset := if offset < 0 then 0 else offset
    (offset, selected)

/-! ## Chart engine (`src/chart.c`)

The chart view state lives in locals of `run_event_loop` (`src/main.c`)
that every `chart_*` function receives by reference; `ChartState` bundles
them.  The C variable `chart_count` always equals the length of the
`chart_points` buffer — `fetch_historical_data` returns the two together
(`cticker.h`), and every write pairs them — so `chart_count` is modelled
as the buffer length. -/
/-- The chart-related locals of `run_event_loop` (`src/main.c`). -/
structure ChartState where
  show_chart : Bool
  chart_symbol : String
  chart_symbol_index : Int
  current_period : Period
  chart_points : List PricePoint
  chart_cursor_idx : Int
  chart_follow_latest : Bool
deriving DecidableEq, Repr

/-- `chart_count`: number of candles in the buffer (see module comment). -/
def ChartState.chart_count (s : ChartState) : Int :=
  (s.chart_points.length : Int)

/-- Placeholder row for guarded list accesses (never observable: every
`getD` below sits under an index-in-bounds guard from the source). -/
def dummyTicker : TickerData :=
  ⟨"", 0, 0, 0, 0, 0, 0, 0, 0, "", "", ""⟩

/-- Placeholder candle for guarded list accesses (cf. `dummyTicker`). -/
def dummyPoint : PricePoint :=
  ⟨0, 0, 0, 0, 0, 0, 0, 0, 0, 0, 0, "", "", "", ""⟩

/-- `chart_clamp_cursor`: normalize the cursor into the current candle
range (`-1` when the buffer is empty; both out-of-range directions snap to
the last candle, in the source's sequential-`if` order). -/
def chart_clamp_cursor (chart_count chart_cursor_idx : Int) : Int :=
  if chart_count ≤ 0 then -1
  else
    let c := if chart_cursor_idx ≥ chart_count then chart_count - 1 else chart_cursor_idx
    if c < 0 then chart_count - 1 else c

/-- The scan loop of `chart_restore_cursor_by_timestamp`, carrying the
current index `i`. -/
def chart_restore_cursor_loop (timestamp : Nat) : List PricePoint → Int → Int
  | [], _ => -1
  | p :: rest, i =>
      if p.timestamp = timestamp then i else chart_restore_cursor_loop timestamp rest (i + 1)

/-- `chart_restore_cursor_by_timestamp`: index of the first candle whose
open timestamp matches, or `-1`. -/
def chart_restore_cursor_by_timestamp (points : List PricePoint) (timestamp : Nat) : Int :=
  if points.length ≤ 0 then -1
  else chart_restore_cursor_loop timestamp points 0

/-- `chart_change_period`: step the period with wraparound; on a successful
reload replace the buffer and re-clamp the cursor; on failure revert the
period (and `beep()`) leaving buffer and cursor untouched.  The fetch
outcome of `fetch_historical_data` at the new period is the `fetch`
parameter. -/
def chart_change_period (step : Int) (fetch : Option (List PricePoint))
    (s : ChartState) : ChartState :=
  let next := s.current_period.toInt + step
  let next := if next < 0 then PERIOD_COUNT - 1
    else if next ≥ PERIOD_COUNT then 0 else next
  match fetch with
  | some new_points =>
      { s with current_period := Period.ofInt next,
               chart_points := new_points,
               chart_cursor_idx :=
                 chart_clamp_cursor (new_points.length : Int) s.chart_cursor_idx }
  | none => s

/-- `chart_open`: validate the symbol index, resolve the symbol string from
the shared ticker table (under the data mutex, dropped here), cache the
index, and fetch candles synchronously.  Returns the C `bool` result plus
the state; note the source writes `chart_symbol_index` and `chart_symbol`
*before* the fetch. -/
def chart_open (tickers : List TickerData) (symbol_index : Int)
    (fetch : Option (List PricePoint)) (s : ChartState) : Bool × ChartState :=
  let s := { s with chart_symbol_index := -1 }
  let ticker_count : Int := (tickers.length : Int)
  if ticker_count ≤ 0 ∨ symbol_index < 0 ∨ symbol_index ≥ ticker_count then
    (false, s)
  else
    let s := { s with
      chart_symbol := (tickers.getD symbol_index.toNat dummyTicker).symbol,
      chart_symbol_index := symbol_index }
    match fetch with
    | some new_points =>
        (true, { s with
          chart_points := new_points,
          chart_cursor_idx :=
            if (0 : Int) < (new_points.length : Int)
            then (new_points.length : Int) - 1 else -1 })
    | none => (false, s)

/-- The chart-open call sites (`priceboard_handle_input` ENTER case and
`priceboard_handle_mouse` left click): `show_chart` is set only when
`chart_open` returns true. -/
def priceboard_open_chart (tickers : List TickerData) (symbol_index : Int)
    (fetch : Option (List PricePoint)) (s : ChartState) : ChartState :=
  let r := chart_open tickers symbol_index fetch s
  if r.1 then { r.2 with show_chart := true } else r.2

/-- `chart_close` together with `chart_reset_state`: leave chart mode,
clear the symbol and cached index, discard the buffer, reset the cursor.
(`ui_chart_reset_viewport` touches only render-cache state outside this
model.) -/
def chart_close (s : ChartState) : ChartState :=
  { s with show_chart := false,
           chart_symbol := "",
           chart_symbol_index := -1,
           chart_points := [],
           chart_cursor_idx := -1 }

/-- `chart_apply_live_price`: look up the live ticker row (cached index
first, falling back to a linear scan by symbol string) and, for a positive
price, patch the last candle in place: raise `high`, lower `low` (or set it
if it was 0), always set `close`, blanking the touched text caches. -/
def chart_apply_live_price (tickers : List TickerData) (s : ChartState) : ChartState :=
  if s.chart_symbol = "" ∨ s.chart_count ≤ 0 then s
  else
    let cached_hit := 0 ≤ s.chart_symbol_index ∧
      s.chart_symbol_index < (tickers.length : Int) ∧
      (tickers.getD s.chart_symbol_index.toNat dummyTicker).symbol = s.chart_symbol
    let found := if cached_hit then tickers.getD s.chart_symbol_index.toNat dummyTicker
      else (tickers.find? (fun t => t.symbol = s.chart_symbol)).getD dummyTicker
    let found_ok := cached_hit ∨ (tickers.find? (fun t => t.symbol = s.chart_symbol)).isSome
    if ¬found_ok then s
    else if found.price ≤ 0 then s
    else
      match s.chart_points.getLast? with
      | none => s
      | some last =>
        let last := if found.price > last.high
          then { last with high := found.price, high_text := "" } else last
        let last := if last.low = 0 ∨ found.price < last.low
          then { last with low := found.price, low_text := "" } else last
        let last := { last with close := found.price, close_text := "" }
        { s with chart_points := s.chart_points.set (s.chart_points.length - 1) last }

/-- `chart_refresh_if_expired`: when the wall clock has reached the last
candle's close time, capture the selection (timestamp + whether it was the
last candle), reload, and reconcile: no selection or was-latest → snap to
the new last candle; otherwise restore by timestamp, snapping to the last
candle when the timestamp is gone.  A failed reload is silently skipped. -/
def chart_refresh_if_expired (now : Nat) (fetch : Option (List PricePoint))
    (s : ChartState) : ChartState :=
  if s.chart_symbol = "" ∨ s.chart_points = [] ∨ s.chart_count ≤ 0 then s
  else
    match s.chart_points.getLast? with
    | none => s
    | some last =>
      if now < last.close_time then s
      else
        let retain_selection := 0 ≤ s.chart_cursor_idx ∧ s.chart_cursor_idx < s.chart_count
        let retained_ts := if retain_selection
          then (s.chart_points.getD s.chart_cursor_idx.toNat dummyPoint).timestamp else 0
        let was_latest := retain_selection ∧ s.chart_cursor_idx = s.chart_count - 1
        match fetch with
        | none => s
        | some new_points =>
          let t := { s with chart_points := new_points }
          if t.chart_points = [] ∨ t.chart_count ≤ (0 : Int) then
            { t with chart_cursor_idx := -1 }
          else if ¬retain_selection then
            { t with chart_cursor_idx :=
                if 0 < t.chart_count then t.chart_count - 1 else -1 }
          else if was_latest then
            { t with chart_cursor_idx :=
                if 0 < t.chart_count then t.chart_count - 1 else -1 }
          else
            let restored_idx := chart_restore_cursor_by_timestamp new_points retained_ts
            if restored_idx ≥ 0 then { t with chart_cursor_idx := restored_idx }
            else { t with chart_cursor_idx :=
                if 0 < t.chart_count then t.chart_count - 1 else -1 }

/-- `chart_force_refresh`: unconditional reload; failure `beep()`s and
leaves the state untouched.  On success: empty buffer → `-1`; the
`follow_latest` argument forces the new last candle; otherwise restore the
captured selection by timestamp, falling back to the last candle. -/
def chart_force_refresh (fetch : Option (List PricePoint)) (follow_latest : Bool)
    (s : ChartState) : ChartState :=
  if s.chart_symbol = "" then s
  else
    let retain_selection := 0 ≤ s.chart_cursor_idx ∧ s.chart_cursor_idx < s.chart_count
    let retained_ts := if retain_selection
      then (s.chart_points.getD s.chart_cursor_idx.toNat dummyPoint).timestamp else 0
    match fetch with
    | none => s
    | some new_points =>
      let t := { s with chart_points := new_points }
      if t.chart_points = [] ∨ t.chart_count ≤ (0 : Int) then
        { t with chart_cursor_idx := -1 }
      else if follow_latest then
        { t with chart_cursor_idx := t.chart_count - 1 }
      else if ¬retain_selection then
        { t with chart_cursor_idx := t.chart_count - 1 }
      else
        let restored_idx := chart_restore_cursor_by_timestamp new_points retained_ts
        if restored_idx ≥ 0 then { t with chart_cursor_idx := restored_idx }
        else { t with chart_cursor_idx := t.chart_count - 1 }

/-- ncurses key codes used by the chart input switch. -/
def KEY_DOWN : Int := 258

/-- ncurses `KEY_UP`. -/
def KEY_UP : Int := 259

/-- ncurses `KEY_LEFT`. -/
def KEY_LEFT : Int := 260

/-- ncurses `KEY_RIGHT`. -/
def KEY_RIGHT : Int := 261

/-- `chart_handle_input`: the chart-mode key switch.  Every fallible branch
takes the outcome of its single `fetch_historical_data` call from `fetch`. -/
def chart_handle_input (ch : Int) (fetch : Option (List PricePoint))
    (s : ChartState) : ChartState :=
  if ch = KEY_UP then chart_change_period (-1) fetch s
  else if ch = KEY_DOWN then chart_change_period 1 fetch s
  else if ch = KEY_LEFT then
    if s.chart_cursor_idx > 0 then
      { s with
        chart_cursor_idx := chart_clamp_cursor s.chart_count (s.chart_cursor_idx - 1),
        chart_follow_latest := false }
    else s
  else if ch = KEY_RIGHT then
    if 0 ≤ s.chart_cursor_idx ∧ s.chart_cursor_idx < s.chart_count - 1 then
      { s with
        chart_cursor_idx := chart_clamp_cursor s.chart_count (s.chart_cursor_idx + 1),
        chart_follow_latest := false }
    else s
  else if ch = 102 ∨ ch = 70 then
    let follow := !s.chart_follow_latest
    let t := { s with chart_follow_latest := follow }
    if follow ∧ 0 < t.chart_count then
      { t with chart_cursor_idx := t.chart_count - 1 }
    else t
  else if ch = 114 ∨ ch = 82 then
    chart_force_refresh fetch s.chart_follow_latest s
  else if ch = 113 ∨ ch = 81 ∨ ch = 27 then
    let t := chart_close s
    { t with chart_follow_latest := true }
  else s

/-- One decoded chart mouse event (`chart_handle_mouse`): for a left click,
`hit_index` stands for the collaborator result
`ui_chart_hit_test_index(ev.x, chart_count)` (any integer, `-1` = miss). -/
inductive ChartMouseEvent where
  | button3
  | button4
  | button5
  | button1 (hit_index : Int)
deriving DecidableEq, Repr

/-- `chart_handle_mouse`: right click closes (via the ESC path of
`chart_handle_input`), the wheel steps the period, a left click on a candle
moves the cursor (clamped) and clears follow-latest. -/
def chart_handle_mouse (ev : ChartMouseEvent) (fetch : Option (List PricePoint))
    (s : ChartState) : ChartState :=
  match ev with
  | .button3 => chart_handle_input 27 fetch s
  | .button4 => chart_change_period (-1) fetch s
  | .button5 => chart_change_period 1 fetch s
  | .button1 hit_index =>
      if hit_index ≥ 0 then
        { s with
          chart_cursor_idx := chart_clamp_cursor s.chart_count hit_index,
          chart_follow_latest := false }
      else s

/-- The chart branch of one `run_event_loop` iteration before drawing
(`src/main.c`, lines 944-955): capture the effective follow flag, run the
expiry refresh and the live-price overlay, then snap the cursor to the last
candle whenever the effective follow flag is set. -/
def run_event_loop_chart_pass (tickers : List TickerData) (now : Nat)
    (fetch : Option (List PricePoint)) (s : ChartState) : ChartState :=
  if s.show_chart then
    let follow_latest := s.chart_follow_latest ||
      (decide (0 ≤ s.chart_cursor_idx) && decide (s.chart_cursor_idx = s.chart_count - 1))
    let s1 := chart_refresh_if_expired now fetch s
    let s2 := chart_apply_live_price tickers s1
    if follow_latest ∧ 0 < s2.chart_count then
      { s2 with chart_cursor_idx := s2.chart_count - 1 }
    else s2
  else s

/-! ### Concrete fixtures for the chart claims -/
/-- Candle with a given open timestamp and close time (other fields 0). -/
def mkPoint (ts ct : Nat) : PricePoint :=
  ⟨ts, ct, 0, 0, 0, 0, 0, 0, 0, 0, 0, "", "", "", ""⟩

/-- Pre-state for the chart-open failure instances: chart closed, a stale
symbol string and cached index left over. -/
def chartOpenPre : ChartState :=
  ⟨false, "OLD", 5, .PERIOD_1MIN, [], -1, true⟩

/-- Scenario-D pre-state: chart open with 5 candles (open timestamps
0..4), cursor at index 2 (timestamp 2), follow-latest off. -/
def chartD : ChartState :=
  ⟨true, "BTCUSDT", 0, .PERIOD_1MIN,
    [mkPoint 0 100, mkPoint 1 100, mkPoint 2 100, mkPoint 3 100, mkPoint 4 100],
    2, false⟩

/-- Scenario-D refetch result: 5 candles with the old cursor's timestamp
(2) now at index 0. -/
def chartD_new : List PricePoint :=
  [mkPoint 2 100, mkPoint 5 200, mkPoint 6 200, mkPoint 7 200, mkPoint 8 200]

/-! ### C5 — chart cursor invariant -/
/-- The chart cursor invariant: `-1 ≤ cursor < len(candles)` and
`cursor = -1` exactly when the buffer is empty. -/
def ChartCursorInv (s : ChartState) : Prop :=
  -1 ≤ s.chart_cursor_idx ∧ s.chart_cursor_idx < s.chart_count ∧
    (s.chart_cursor_idx = -1 ↔ s.chart_count = 0)

instance (s : ChartState) : Decidable (ChartCursorInv s) := by
  unfold ChartCursorInv
  infer_instance

/-- One chart operation of the claim: open from the board, a chart-mode
key (close, cursor move, period change, follow toggle, force refresh), a
chart-mode mouse event (hit, wheel period change, right-click close), or
the per-frame auto refresh. -/
inductive ChartOp where
  | opOpen (tickers : List TickerData) (symbol_index : Int)
      (fetch : Option (List PricePoint))
  | opKey (ch : Int) (fetch : Option (List PricePoint))
  | opMouse (ev : ChartMouseEvent) (fetch : Option (List PricePoint))
  | opAutoRefresh (now : Nat) (fetch : Option (List PricePoint))

/-- Dispatch one chart operation to the corresponding source function. -/
def chart_step : ChartOp → ChartState → ChartState
  | .opOpen tickers symbol_index fetch, s =>
      priceboard_open_chart tickers symbol_index fetch s
  | .opKey ch fetch, s => chart_handle_input ch fetch s
  | .opMouse ev fetch, s => chart_handle_mouse ev fetch s
  | .opAutoRefresh now fetch, s => chart_refresh_if_expired now fetch s

/-! ## Fetcher (`src/fetcher.c`) -/
/-- The per-symbol loop of `fetch_all_symbols`: `results` holds each
symbol's `fetch_ticker_data` outcome (`some row` = return 0, `none` =
failure); the second argument is the scratch buffer, whose stale entry is
kept on failure.  Models a cycle during which `runtime_is_running()` stays
true (no shutdown mid-pass).  The `updated` bitmap starts all-false
(`memset` in `fetcher_thread_main`, `calloc` in `fetcher_initial_fetch`).
Returns `(scratch', updated, had_failure)`. -/
def fetch_all_symbols : List (Option TickerData) → List TickerData →
    List TickerData × List Bool × Bool
  | [], _ => ([], [], false)
  | _ :: _, [] => ([], [], false)
  | r :: rs, sc :: scs =>
      let rest := fetch_all_symbols rs scs
      match r with
      | some d => (d :: rest.1, true :: rest.2.1, rest.2.2)
      | none => (sc :: rest.1, false :: rest.2.1, true)

/-- `apply_updated_tickers`: under the data mutex (dropped here), copy into
the shared buffer exactly the scratch rows whose updated bit is set. -/
def apply_updated_tickers : List TickerData → List TickerData → List Bool →
    List TickerData
  | [], _, _ => []
  | g :: gs, sc :: scs, u :: us =>
      (if u then sc else g) :: apply_updated_tickers gs scs us
  | g :: gs, _, _ => g :: gs

/-- One fetch cycle of `fetcher_thread_main` (also the body of
`fetcher_initial_fetch`): fetch all symbols into scratch, publish the
updated rows, and set the status panel to NetworkError when the cycle had
a failure, Normal otherwise. -/
def fetcher_cycle (results : List (Option TickerData))
    (global scratch : List TickerData) : List TickerData × StatusPanelState :=
  let fa := fetch_all_symbols results scratch
  (apply_updated_tickers global fa.1 fa.2.1,
    if fa.2.2 then .STATUS_PANEL_NETWORK_ERROR else .STATUS_PANEL_NORMAL)

/-! ### Comparator facts -/
theorem cmp3_antisymm (x y : Int) : cmp3 y x = -cmp3 x y := by
  unfold cmp3
  split_ifs <;> omega

theorem compare_rows_antisymm (st : SortState) (a b : SnapRow) :
    priceboard_compare_rows st b a = -priceboard_compare_rows st a b := by
  simp only [priceboard_compare_rows, cmp3]
  split_ifs <;> first | (exfalso; assumption) | omega

/-- `priceboard_compare_rows _ a b ≤ 0` is the lexicographic order on
(sort value, origin), reversed when the direction is Desc. -/
theorem compare_rows_nonpos_iff (st : SortState) (a b : SnapRow) :
    priceboard_compare_rows st a b ≤ 0 ↔
      (if st.current_sort_direction = .SORT_DIR_DESC then
        (priceboard_sort_value b.row st.current_sort_field <
            priceboard_sort_value a.row st.current_sort_field ∨
          (priceboard_sort_value b.row st.current_sort_field =
              priceboard_sort_value a.row st.current_sort_field ∧ b.origin ≤ a.origin))
      else
        (priceboard_sort_value a.row st.current_sort_field <
            priceboard_sort_value b.row st.current_sort_field ∨
          (priceboard_sort_value a.row st.current_sort_field =
              priceboard_sort_value b.row st.current_sort_field ∧ a.origin ≤ b.origin))) := by
  simp only [priceboard_compare_rows, cmp3]
  split_ifs <;> first | (exfalso; assumption) | omega

theorem compare_rows_le_trans (st : SortState) (a b c : SnapRow)
    (hab : priceboard_compare_rows st a b ≤ 0)
    (hbc : priceboard_compare_rows st b c ≤ 0) :
    priceboard_compare_rows st a c ≤ 0 := by
  rw [compare_rows_nonpos_iff] at hab hbc ⊢
  split_ifs at hab hbc ⊢ <;>
    rcases hab with h1 | ⟨h1, h1o⟩ <;> rcases hbc with h2 | ⟨h2, h2o⟩ <;>
    first
      | (left; omega)
      | (right; constructor <;> omega)

theorem priceboard_insert_row_perm (st : SortState) (rev : List SnapRow) (x : SnapRow) :
    List.Perm (priceboard_insert_row st rev x) (x :: rev) := by
  induction rev with
  | nil => simp [priceboard_insert_row]
  | cons y rev ih =>
      unfold priceboard_insert_row
      split_ifs with h
      · exact ((ih.cons y).trans (List.Perm.swap x y rev))
      · exact List.Perm.refl _

theorem mem_priceboard_insert_row (st : SortState) (rev : List SnapRow) (x z : SnapRow)
    (hz : z ∈ priceboard_insert_row st rev x) : z = x ∨ z ∈ rev := by
  have := (priceboard_insert_row_perm st rev x).mem_iff.mp hz
  exact List.mem_cons.mp this

/-- The bubble-insert preserves the loop invariant: the reversed prefix is
pairwise ordered by the *flipped* comparator (so the prefix itself is
sorted). -/
theorem priceboard_insert_row_pairwise (st : SortState) (rev : List SnapRow) (x : SnapRow)
    (h : rev.Pairwise (fun a b => cmpLE st b a)) :
    (priceboard_insert_row st rev x).Pairwise (fun a b => cmpLE st b a) := by
  induction rev with
  | nil => simp [priceboard_insert_row]
  | cons y rev ih =>
      rw [List.pairwise_cons] at h
      obtain ⟨hy, hrev⟩ := h
      unfold priceboard_insert_row
      split_ifs with hcmp
      · rw [List.pairwise_cons]
        refine ⟨?_, ih hrev⟩
        intro z hz
        rcases mem_priceboard_insert_row st rev x z hz with rfl | hz
        · show priceboard_compare_rows st z y ≤ 0
          rw [compare_rows_antisymm]
          omega
        · exact hy z hz
      · rw [List.pairwise_cons, List.pairwise_cons]
        refine ⟨?_, ?_, hrev⟩
        · intro z hz
          rcases List.mem_cons.mp hz with rfl | hz
          · show priceboard_compare_rows st z x ≤ 0
            omega
          · exact compare_rows_le_trans st z y x (hy z hz) (by omega)
        · exact hy

theorem priceboard_sort_loop_perm (st : SortState) (rev rest : List SnapRow) :
    List.Perm (priceboard_sort_loop st rev rest) (rev ++ rest) := by
  induction rest generalizing rev with
  | nil =>
      unfold priceboard_sort_loop
      simp only [List.append_nil]
      exact rev.reverse_perm
  | cons x rest ih =>
      unfold priceboard_sort_loop
      exact ((ih _).trans
        ((priceboard_insert_row_perm st rev x).append_right rest)).trans
        List.perm_middle.symm

theorem priceboard_sort_loop_pairwise (st : SortState) (rev rest : List SnapRow)
    (h : rev.Pairwise (fun a b => cmpLE st b a)) :
    (priceboard_sort_loop st rev rest).Pairwise (cmpLE st) := by
  induction rest generalizing rev with
  | nil =>
      unfold priceboard_sort_loop
      exact (List.pairwise_reverse).mpr h
  | cons x rest ih =>
      unfold priceboard_sort_loop
      exact ih _ (priceboard_insert_row_pairwise st rev x h)

theorem priceboard_apply_sort_perm (st : SortState) (snap : List SnapRow) :
    List.Perm (priceboard_apply_sort st snap) snap := by
  unfold priceboard_apply_sort
  split_ifs
  · exact List.Perm.refl _
  · exact List.Perm.refl _
  · simpa using priceboard_sort_loop_perm st [] snap

theorem priceboard_apply_sort_pairwise (st : SortState) (snap : List SnapRow)
    (hf : st.current_sort_field ≠ .SORT_FIELD_DEFAULT) :
    (priceboard_apply_sort st snap).Pairwise (cmpLE st) := by
  unfold priceboard_apply_sort
  by_cases h1 : snap.length ≤ 1
  · rw [if_pos h1]
    match snap, h1 with
    | [], _ => exact List.Pairwise.nil
    | [a], _ => exact List.pairwise_singleton _ _
    | a :: b :: t, h1 => simp at h1
  · rw [if_neg h1, if_neg hf]
    exact priceboard_sort_loop_pairwise st [] snap (by simp)

/-- The origins of a freshly initialized snapshot are `0, 1, ..., n-1`. -/
theorem mkSnapshot_map_origin (rows : List TickerData) :
    (mkSnapshot rows).map SnapRow.origin = (List.range rows.length).map Int.ofNat := by
  unfold mkSnapshot
  rw [List.map_map, ← List.enum_map_fst rows, List.map_map]
  rfl

/-- The origin indices of the sorted snapshot are pairwise distinct. -/
theorem priceboard_apply_sort_origin_nodup (st : SortState) (rows : List TickerData) :
    ((priceboard_apply_sort st (mkSnapshot rows)).map SnapRow.origin).Nodup := by
  have hperm := (priceboard_apply_sort_perm st (mkSnapshot rows)).map SnapRow.origin
  rw [hperm.nodup_iff, mkSnapshot_map_origin]
  exact (List.nodup_range _).map (fun a b h => Int.ofNat_inj.mp h)

/-- **C1** (amended): for an active sort field, after `priceboard_apply_sort`
two rows with exactly equal sort-field values appear in ascending original
Config-index order when the direction is Asc, and in *descending* original
order when the direction is Desc — `priceboard_compare_rows` negates the
whole comparison result for Desc, the Config-order tie-break included, so
relative Config order of ties is *not* preserved regardless of direction. -/
theorem priceboard_sort_equal_value_origin_order
    (rows : List TickerData) (st : SortState)
    (hf : st.current_sort_field ≠ .SORT_FIELD_DEFAULT)
    (i j : Fin (priceboard_apply_sort st (mkSnapshot rows)).length)
    (hij : i < j)
    (heq : priceboard_sort_value
        ((priceboard_apply_sort st (mkSnapshot rows)).get i).row st.current_sort_field =
      priceboard_sort_value
        ((priceboard_apply_sort st (mkSnapshot rows)).get j).row st.current_sort_field) :
    (st.current_sort_direction = .SORT_DIR_ASC →
      ((priceboard_apply_sort st (mkSnapshot rows)).get i).origin <
        ((priceboard_apply_sort st (mkSnapshot rows)).get j).origin) ∧
    (st.current_sort_direction = .SORT_DIR_DESC →
      ((priceboard_apply_sort st (mkSnapshot rows)).get j).origin <
        ((priceboard_apply_sort st (mkSnapshot rows)).get i).origin) := by
  have hpw := priceboard_apply_sort_pairwise st (mkSnapshot rows) hf
  have hle : cmpLE st ((priceboard_apply_sort st (mkSnapshot rows)).get i)
      ((priceboard_apply_sort st (mkSnapshot rows)).get j) :=
    List.pairwise_iff_get.mp hpw i j hij
  have hne : ((priceboard_apply_sort st (mkSnapshot rows)).get i).origin ≠
      ((priceboard_apply_sort st (mkSnapshot rows)).get j).origin := by
    have hnd := priceboard_apply_sort_origin_nodup st rows
    have hpw2 : (priceboard_apply_sort st (mkSnapshot rows)).Pairwise
        (fun a b => a.origin ≠ b.origin) := by
      rw [List.Nodup, List.pairwise_map] at hnd
      exact hnd
    exact List.pairwise_iff_get.mp hpw2 i j hij
  unfold cmpLE at hle
  rw [compare_rows_nonpos_iff] at hle
  constructor
  · intro hd
    rw [hd] at hle
    simp only [reduceCtorEq, if_false] at hle
    rcases hle with h | ⟨h, ho⟩
    · omega
    · omega
  · intro hd
    rw [hd] at hle
    simp only [if_true] at hle
    rcases hle with h | ⟨h, ho⟩
    · omega
    · omega

/-- **C1** (counterexample to the claim as stated): with the Price field
active in the Desc direction, two rows with exactly equal prices come out
in *descending* Config order (`origin 1` before `origin 0`), refuting
"ascending original Config-index order ... in both the Asc and the Desc
direction". -/
theorem priceboard_sort_desc_tie_counterexample :
    ((priceboard_apply_sort ⟨.SORT_FIELD_PRICE, .SORT_DIR_DESC⟩
        (mkSnapshot [tickerRowEqA, tickerRowEqB])).map SnapRow.origin = [1, 0]) ∧
    priceboard_sort_value tickerRowEqA .SORT_FIELD_PRICE =
      priceboard_sort_value tickerRowEqB .SORT_FIELD_PRICE ∧
    ¬(1 : Int) < 0 := by
  refine ⟨?_, by decide, by decide⟩
  decide

/-- Witness for the amended C1 theorem at a concrete input (Asc direction,
equal prices: ties come out in ascending Config order). -/
theorem priceboard_sort_equal_value_origin_order_witness :
    ((⟨.SORT_FIELD_PRICE, .SORT_DIR_ASC⟩ : SortState).current_sort_field ≠
      .SORT_FIELD_DEFAULT) ∧
    ((priceboard_apply_sort ⟨.SORT_FIELD_PRICE, .SORT_DIR_ASC⟩
        (mkSnapshot [tickerRowEqA, tickerRowEqB])).get ⟨0, by decide⟩).origin <
      ((priceboard_apply_sort ⟨.SORT_FIELD_PRICE, .SORT_DIR_ASC⟩
        (mkSnapshot [tickerRowEqA, tickerRowEqB])).get ⟨1, by decide⟩).origin :=
  ⟨by decide,
    (priceboard_sort_equal_value_origin_order [tickerRowEqA, tickerRowEqB]
      ⟨.SORT_FIELD_PRICE, .SORT_DIR_ASC⟩ (by decide) ⟨0, by decide⟩ ⟨1, by decide⟩
      (by decide) (by decide)).1 rfl⟩

/-- **C8** (amended): pressing the hot-key for a field makes it active-Desc
if it was inactive (including when the *other* field was the active one —
the press takes over), active-Asc if it was active-Desc, and inactive if it
was active-Asc; three consecutive presses starting from a state where the
field is inactive end in the inactive (Config-order) state; and after
pressing a field the other field is never the active one — so the other
field's status is unchanged when it was inactive, but it is *deactivated*
(not preserved) when it was the active one. -/
theorem priceboard_cycle_sort_spec (st : SortState) (field : PriceboardSortField)
    (hfield : field ≠ .SORT_FIELD_DEFAULT) :
    (st.current_sort_field ≠ field →
      priceboard_cycle_sort field st = ⟨field, .SORT_DIR_DESC⟩) ∧
    (st.current_sort_field = field →
      st.current_sort_direction = .SORT_DIR_DESC →
      priceboard_cycle_sort field st = ⟨field, .SORT_DIR_ASC⟩) ∧
    (st.current_sort_field = field →
      st.current_sort_direction = .SORT_DIR_ASC →
      priceboard_cycle_sort field st = ⟨.SORT_FIELD_DEFAULT, .SORT_DIR_DESC⟩) ∧
    (st.current_sort_field ≠ field →
      priceboard_cycle_sort field
          (priceboard_cycle_sort field (priceboard_cycle_sort field st)) =
        ⟨.SORT_FIELD_DEFAULT, .SORT_DIR_DESC⟩) ∧
    ((priceboard_cycle_sort field st).current_sort_field = field ∨
      (priceboard_cycle_sort field st).current_sort_field = .SORT_FIELD_DEFAULT) := by
  revert st field
  decide

/-- **C8** (counterexample to the claim as stated): pressing the Price
hot-key while Change is the active sort field *does* change whether the
other (Change) field is active: Change is active before the press and
inactive after it. -/
theorem priceboard_cycle_sort_other_field_counterexample :
    ((⟨.SORT_FIELD_CHANGE, .SORT_DIR_DESC⟩ : SortState).current_sort_field =
      .SORT_FIELD_CHANGE) ∧
    (priceboard_cycle_sort .SORT_FIELD_PRICE
        ⟨.SORT_FIELD_CHANGE, .SORT_DIR_DESC⟩).current_sort_field ≠
      .SORT_FIELD_CHANGE := by
  decide

/-- Witness for the amended C8 theorem at a concrete input. -/
theorem priceboard_cycle_sort_spec_witness :
    ((PriceboardSortField.SORT_FIELD_PRICE ≠ .SORT_FIELD_DEFAULT) ∧
      ((⟨.SORT_FIELD_DEFAULT, .SORT_DIR_DESC⟩ : SortState).current_sort_field ≠
          .SORT_FIELD_PRICE →
        priceboard_cycle_sort .SORT_FIELD_PRICE ⟨.SORT_FIELD_DEFAULT, .SORT_DIR_DESC⟩ =
          ⟨.SORT_FIELD_PRICE, .SORT_DIR_DESC⟩)) :=
  ⟨by decide,
    (priceboard_cycle_sort_spec ⟨.SORT_FIELD_DEFAULT, .SORT_DIR_DESC⟩
      .SORT_FIELD_PRICE (by decide)).1⟩

/-- **C7** (confirmed): for `count > 0` and `visible_rows ≥ 1`, any prior
scroll offset and any selected index, the computed offset keeps the clamped
selection on screen (`offset ≤ selected < offset + visible_rows`) and stays
within `[0, max(0, count - visible_rows)]`. -/
theorem draw_main_screen_viewport_invariant
    (count visible_rows scroll_offset selected : Int)
    (hcount : 0 < count) (hvis : 1 ≤ visible_rows) :
    (draw_main_screen_viewport count visible_rows scroll_offset selected).1 ≤
        (draw_main_screen_viewport count visible_rows scroll_offset selected).2 ∧
    (draw_main_screen_viewport count visible_rows scroll_offset selected).2 <
        (draw_main_screen_viewport count visible_rows scroll_offset selected).1 +
          visible_rows ∧
    0 ≤ (draw_main_screen_viewport count visible_rows scroll_offset selected).1 ∧
    (draw_main_screen_viewport count visible_rows scroll_offset selected).1 ≤
        max 0 (count - visible_rows) := by
  have h0 : ¬count ≤ 0 := by omega
  simp only [draw_main_screen_viewport, h0, if_false]
  split_ifs <;> omega

/-- Witness for the C7 viewport theorem at a concrete input (10 rows,
5 visible, stale offset 42, selection 7). -/
theorem draw_main_screen_viewport_invariant_witness :
    ((0 : Int) < 10 ∧ (1 : Int) ≤ 5) ∧
    ((draw_main_screen_viewport 10 5 42 7).1 ≤ (draw_main_screen_viewport 10 5 42 7).2 ∧
      (draw_main_screen_viewport 10 5 42 7).2 <
        (draw_main_screen_viewport 10 5 42 7).1 + 5 ∧
      0 ≤ (draw_main_screen_viewport 10 5 42 7).1 ∧
      (draw_main_screen_viewport 10 5 42 7).1 ≤ max 0 (10 - 5)) :=
  ⟨⟨by decide, by decide⟩,
    draw_main_screen_viewport_invariant 10 5 42 7 (by decide) (by decide)⟩

/-! ### C4 — chart open on fetch failure -/
/-- **C4** (amended): when the synchronous candle fetch fails, `chart_open`
returns false and the candle buffer, count, cursor, period, follow flag and
`show_chart` are all untouched — but the call is *not* fully atomic: before
fetching it has already overwritten `chart_symbol` with the resolved symbol
and `chart_symbol_index` with the requested index, and these writes are not
rolled back. -/
theorem chart_open_failure_effects (tickers : List TickerData) (symbol_index : Int)
    (s : ChartState)
    (hlo : 0 ≤ symbol_index) (hhi : symbol_index < (tickers.length : Int)) :
    chart_open tickers symbol_index none s =
      (false, { s with
        chart_symbol := (tickers.getD symbol_index.toNat dummyTicker).symbol,
        chart_symbol_index := symbol_index }) := by
  simp only [chart_open]
  rw [if_neg (by omega)]

/-- **C4** (counterexample to the claim as stated): a failing `chart_open`
on a valid index returns false with buffer, cursor and `show_chart`
untouched, but the chart symbol string and the cached symbol index *do*
change, refuting "no state changes occur". -/
theorem chart_open_failure_counterexample :
    (chart_open [tickerRowEqA] 0 none chartOpenPre).1 = false ∧
    (chart_open [tickerRowEqA] 0 none chartOpenPre).2.chart_points =
      chartOpenPre.chart_points ∧
    (chart_open [tickerRowEqA] 0 none chartOpenPre).2.chart_cursor_idx =
      chartOpenPre.chart_cursor_idx ∧
    (chart_open [tickerRowEqA] 0 none chartOpenPre).2.show_chart =
      chartOpenPre.show_chart ∧
    (chart_open [tickerRowEqA] 0 none chartOpenPre).2.chart_symbol ≠
      chartOpenPre.chart_symbol ∧
    (chart_open [tickerRowEqA] 0 none chartOpenPre).2.chart_symbol_index ≠
      chartOpenPre.chart_symbol_index := by
  decide

/-- Witness for the amended C4 theorem at a concrete input. -/
theorem chart_open_failure_effects_witness :
    ((0 : Int) ≤ 0 ∧ (0 : Int) < (([tickerRowEqA] : List TickerData).length : Int)) ∧
    chart_open [tickerRowEqA] 0 none chartOpenPre =
      (false, { chartOpenPre with
        chart_symbol := (([tickerRowEqA] : List TickerData).getD
          (Int.toNat 0) dummyTicker).symbol,
        chart_symbol_index := 0 }) :=
  ⟨⟨by decide, by decide⟩,
    chart_open_failure_effects [tickerRowEqA] 0 chartOpenPre (by decide) (by decide)⟩

/-! ### C2 — cursor after a period change -/
/-- **C2** (amended): a successful period change only re-clamps the cursor
into the new range — it performs no timestamp-based relocation.  With 5
candles, cursor at index 2, and a refetch returning 5 candles, the cursor
stays at index 2 (regardless of where the old cursor's timestamp ended up
in the new buffer). -/
theorem chart_change_period_keeps_clamped_cursor (step : Int) (s : ChartState)
    (new_points : List PricePoint)
    (hcur : s.chart_cursor_idx = 2) (hnew : new_points.length = 5) :
    (chart_change_period step (some new_points) s).chart_cursor_idx = 2 := by
  simp only [chart_change_period, chart_clamp_cursor, hnew, hcur]
  norm_num

/-- **C2** (counterexample to scenario D as stated): with a 5-candle chart,
cursor at index 2 with open timestamp `t2 = 2`, and a period-change refetch
returning 5 candles in which timestamp 2 sits at index 0, the cursor stays
at index 2 — it does **not** relocate to index 0. -/
theorem chart_change_period_scenario_d_counterexample :
    chartD.chart_points.length = 5 ∧
    chartD.chart_cursor_idx = 2 ∧
    (chartD.chart_points.getD 2 dummyPoint).timestamp =
      (chartD_new.getD 0 dummyPoint).timestamp ∧
    chartD_new.length = 5 ∧
    (chart_change_period 1 (some chartD_new) chartD).chart_cursor_idx ≠ 0 ∧
    (chart_change_period 1 (some chartD_new) chartD).chart_cursor_idx = 2 := by
  decide

/-- Witness for the amended C2 theorem on the scenario-D fixture. -/
theorem chart_change_period_keeps_clamped_cursor_witness :
    (chartD.chart_cursor_idx = 2 ∧ chartD_new.length = 5) ∧
    (chart_change_period 1 (some chartD_new) chartD).chart_cursor_idx = 2 :=
  ⟨⟨by decide, by decide⟩,
    chart_change_period_keeps_clamped_cursor 1 chartD chartD_new
      (by decide) (by decide)⟩

/-! ### C6 — follow-latest invariant of the render pass -/
/-- **C6** (confirmed): in a render pass of the event loop with the chart
open and `chart_follow_latest` set, after the expiry-refresh and live
overlay steps (and the follow snap), whenever the candle buffer is
non-empty the cursor sits on the last candle. -/
theorem run_event_loop_chart_pass_follow_latest (tickers : List TickerData)
    (now : Nat) (fetch : Option (List PricePoint)) (s : ChartState)
    (hshow : s.show_chart = true) (hfollow : s.chart_follow_latest = true) :
    0 < (run_event_loop_chart_pass tickers now fetch s).chart_count →
    (run_event_loop_chart_pass tickers now fetch s).chart_cursor_idx =
      (run_event_loop_chart_pass tickers now fetch s).chart_count - 1 := by
  simp only [run_event_loop_chart_pass, hshow, hfollow, Bool.true_or, if_true, true_and]
  split_ifs with h
  · intro _
    simp [ChartState.chart_count]
  · intro hpos
    exact absurd hpos h

/-- Witness for the C6 theorem: chart open, follow-latest on, stale cursor
0 over 3 candles, no expiry reload; the pass snaps the cursor to index 2. -/
theorem run_event_loop_chart_pass_follow_latest_witness :
    ((⟨true, "BTCUSDT", 0, .PERIOD_1MIN,
        [mkPoint 0 100, mkPoint 1 100, mkPoint 2 100], 0, true⟩ :
          ChartState).show_chart = true ∧
      (⟨true, "BTCUSDT", 0, .PERIOD_1MIN,
        [mkPoint 0 100, mkPoint 1 100, mkPoint 2 100], 0, true⟩ :
          ChartState).chart_follow_latest = true) ∧
    (0 < (run_event_loop_chart_pass [] 0 none
        ⟨true, "BTCUSDT", 0, .PERIOD_1MIN,
          [mkPoint 0 100, mkPoint 1 100, mkPoint 2 100], 0, true⟩).chart_count →
      (run_event_loop_chart_pass [] 0 none
        ⟨true, "BTCUSDT", 0, .PERIOD_1MIN,
          [mkPoint 0 100, mkPoint 1 100, mkPoint 2 100], 0, true⟩).chart_cursor_idx =
        (run_event_loop_chart_pass [] 0 none
          ⟨true, "BTCUSDT", 0, .PERIOD_1MIN,
            [mkPoint 0 100, mkPoint 1 100, mkPoint 2 100], 0, true⟩).chart_count - 1) :=
  ⟨⟨by decide, by decide⟩,
    run_event_loop_chart_pass_follow_latest [] 0 none _ (by decide) (by decide)⟩

/-! ### C10 — closing the chart resets follow-latest -/
/-- **C10** (confirmed): closing the chart with `q`/`Q`/Escape (and the
right-click path, which reuses the Escape branch) resets
`chart_follow_latest` to true besides leaving chart mode, discarding the
buffer, clearing the symbol and cached index, and resetting the cursor to
`-1`; consequently a subsequently opened chart still has the follow flag
set, and when the open succeeds its cursor is on the newest candle
(`count - 1`). -/
theorem chart_close_resets_follow_latest (ch : Int)
    (fetch fetch2 : Option (List PricePoint)) (s : ChartState)
    (tickers : List TickerData) (symbol_index : Int) (new_points : List PricePoint)
    (hch : ch = 113 ∨ ch = 81 ∨ ch = 27) :
    (chart_handle_input ch fetch s).chart_follow_latest = true ∧
    (chart_handle_input ch fetch s).show_chart = false ∧
    (chart_handle_input ch fetch s).chart_points = [] ∧
    (chart_handle_input ch fetch s).chart_cursor_idx = -1 ∧
    (chart_handle_input ch fetch s).chart_symbol = "" ∧
    (chart_handle_input ch fetch s).chart_symbol_index = -1 ∧
    chart_handle_mouse .button3 fetch2 s = chart_handle_input 27 fetch2 s ∧
    (priceboard_open_chart tickers symbol_index (some new_points)
        (chart_handle_input ch fetch s)).chart_follow_latest = true ∧
    ((priceboard_open_chart tickers symbol_index (some new_points)
        (chart_handle_input ch fetch s)).show_chart = true →
      (priceboard_open_chart tickers symbol_index (some new_points)
          (chart_handle_input ch fetch s)).chart_cursor_idx =
        (priceboard_open_chart tickers symbol_index (some new_points)
            (chart_handle_input ch fetch s)).chart_count - 1) := by
  have hclose : chart_handle_input ch fetch s =
      { s with show_chart := false, chart_symbol := "", chart_symbol_index := -1,
               chart_points := [], chart_cursor_idx := -1,
               chart_follow_latest := true } := by
    rcases hch with rfl | rfl | rfl <;>
      simp [chart_handle_input, chart_close, KEY_UP, KEY_DOWN, KEY_LEFT, KEY_RIGHT]
  rw [hclose]
  refine ⟨rfl, rfl, rfl, rfl, rfl, rfl, rfl, ?_, ?_⟩
  · simp only [priceboard_open_chart, chart_open]
    by_cases hvalid : (tickers.length : Int) ≤ 0 ∨ symbol_index < 0 ∨
        symbol_index ≥ (tickers.length : Int)
    · rw [if_pos hvalid]
      simp
    · rw [if_neg hvalid]
      simp
  · simp only [priceboard_open_chart, chart_open]
    by_cases hvalid : (tickers.length : Int) ≤ 0 ∨ symbol_index < 0 ∨
        symbol_index ≥ (tickers.length : Int)
    · rw [if_pos hvalid]
      intro hsh
      simp at hsh
    · rw [if_neg hvalid]
      intro hsh
      simp only [ChartState.chart_count]
      simp
      rintro rfl
      rfl

/-- Witness for the C10 theorem at a concrete input (Escape from scenario
D's state, then a successful re-open on one symbol with 3 candles). -/
theorem chart_close_resets_follow_latest_witness :
    ((27 : Int) = 113 ∨ (27 : Int) = 81 ∨ (27 : Int) = 27) ∧
    (chart_handle_input 27 none chartD).chart_follow_latest = true ∧
    ((priceboard_open_chart [tickerRowEqA] 0
        (some [mkPoint 0 100, mkPoint 1 100, mkPoint 2 100])
        (chart_handle_input 27 none chartD)).show_chart = true →
      (priceboard_open_chart [tickerRowEqA] 0
          (some [mkPoint 0 100, mkPoint 1 100, mkPoint 2 100])
          (chart_handle_input 27 none chartD)).chart_cursor_idx =
        (priceboard_open_chart [tickerRowEqA] 0
            (some [mkPoint 0 100, mkPoint 1 100, mkPoint 2 100])
            (chart_handle_input 27 none chartD)).chart_count - 1) := by
  have h := chart_close_resets_follow_latest 27 none none chartD [tickerRowEqA] 0
    [mkPoint 0 100, mkPoint 1 100, mkPoint 2 100] (by decide)
  exact ⟨by decide, h.1, h.2.2.2.2.2.2.2.2⟩

/-! ### C3 — force refresh vs. auto refresh reconciliation -/
/-- **C3** (amended): given an expired non-empty chart and a successful
fetch, `chart_force_refresh` picks the same cursor as
`chart_refresh_if_expired` *provided* the `follow_latest` flag passed to
the force refresh is true exactly when the valid pre-cursor sat on the last
candle: the two functions differ in that branch — auto-refresh snaps to the
new last candle when the old selection *was* the last candle
(`was_latest`), while force-refresh does so when `follow_latest` is set. -/
theorem chart_force_refresh_matches_expired_reconcile
    (now : Nat) (new_points : List PricePoint) (s : ChartState) (follow : Bool)
    (hsym : ¬s.chart_symbol = "")
    (hne : s.chart_points ≠ [])
    (hexp : ¬now < (s.chart_points.getLast?.getD dummyPoint).close_time)
    (hmatch : 0 ≤ s.chart_cursor_idx ∧ s.chart_cursor_idx < s.chart_count →
      (follow = true ↔ s.chart_cursor_idx = s.chart_count - 1)) :
    (chart_force_refresh (some new_points) follow s).chart_cursor_idx =
      (chart_refresh_if_expired now (some new_points) s).chart_cursor_idx := by
  obtain ⟨l, hl⟩ := Option.isSome_iff_exists.mp (List.getLast?_isSome.mpr hne)
  have hcnt : ¬s.chart_count ≤ 0 := by
    have := List.length_pos.mpr hne
    simp only [ChartState.chart_count]
    omega
  rw [hl] at hexp
  simp only [Option.getD_some] at hexp
  simp only [chart_refresh_if_expired, chart_force_refresh, hl, hsym, hne, hcnt, hexp,
    not_false_eq_true, false_or, or_false, if_false, ite_false, or_self, if_true,
    ite_true, Option.getD_some]
  split_ifs <;> simp_all <;> omega

/-- **C3** (counterexample to the claim as stated): chart with 5 expired
candles (timestamps 0..4), cursor manually parked on the last candle
(index 4) with follow-latest off; the refetch returns 7 candles with
timestamp 4 at index 2.  `chart_refresh_if_expired` snaps to the new last
candle (index 6, `was_latest`), while `chart_force_refresh` with
`follow_latest = false` restores the timestamp (index 2): the chosen
cursors differ, so the reload-and-reconcile logic is not identical. -/
theorem chart_force_refresh_differs_counterexample :
    (chart_force_refresh
        (some [mkPoint 2 100, mkPoint 3 100, mkPoint 4 100, mkPoint 5 200,
          mkPoint 6 200, mkPoint 7 200, mkPoint 8 200]) false
        ⟨true, "BTCUSDT", 0, .PERIOD_1MIN,
          [mkPoint 0 100, mkPoint 1 100, mkPoint 2 100, mkPoint 3 100, mkPoint 4 100],
          4, false⟩).chart_cursor_idx = 2 ∧
    (chart_refresh_if_expired 100
        (some [mkPoint 2 100, mkPoint 3 100, mkPoint 4 100, mkPoint 5 200,
          mkPoint 6 200, mkPoint 7 200, mkPoint 8 200])
        ⟨true, "BTCUSDT", 0, .PERIOD_1MIN,
          [mkPoint 0 100, mkPoint 1 100, mkPoint 2 100, mkPoint 3 100, mkPoint 4 100],
          4, false⟩).chart_cursor_idx = 6 ∧
    (2 : Int) ≠ 6 := by
  decide

/-- Witness for the amended C3 theorem: same expired pre-state but with
`follow_latest = true`, matching the cursor-on-last-candle pre-state; both
refresh paths then pick the same cursor. -/
theorem chart_force_refresh_matches_expired_reconcile_witness :
    (¬(⟨true, "BTCUSDT", 0, .PERIOD_1MIN,
        [mkPoint 0 100, mkPoint 1 100, mkPoint 2 100, mkPoint 3 100, mkPoint 4 100],
        4, true⟩ : ChartState).chart_symbol = "") ∧
    (chart_force_refresh
        (some [mkPoint 2 100, mkPoint 3 100, mkPoint 4 100, mkPoint 5 200,
          mkPoint 6 200, mkPoint 7 200, mkPoint 8 200]) true
        ⟨true, "BTCUSDT", 0, .PERIOD_1MIN,
          [mkPoint 0 100, mkPoint 1 100, mkPoint 2 100, mkPoint 3 100, mkPoint 4 100],
          4, true⟩).chart_cursor_idx =
      (chart_refresh_if_expired 100
          (some [mkPoint 2 100, mkPoint 3 100, mkPoint 4 100, mkPoint 5 200,
            mkPoint 6 200, mkPoint 7 200, mkPoint 8 200])
          ⟨true, "BTCUSDT", 0, .PERIOD_1MIN,
            [mkPoint 0 100, mkPoint 1 100, mkPoint 2 100, mkPoint 3 100, mkPoint 4 100],
            4, true⟩).chart_cursor_idx :=
  ⟨by decide,
    chart_force_refresh_matches_expired_reconcile 100
      [mkPoint 2 100, mkPoint 3 100, mkPoint 4 100, mkPoint 5 200,
        mkPoint 6 200, mkPoint 7 200, mkPoint 8 200]
      ⟨true, "BTCUSDT", 0, .PERIOD_1MIN,
        [mkPoint 0 100, mkPoint 1 100, mkPoint 2 100, mkPoint 3 100, mkPoint 4 100],
        4, true⟩ true (by decide) (by decide) (by decide) (by decide)⟩

/-- `chart_clamp_cursor` establishes the cursor invariant for any input
cursor and any non-negative count. -/
theorem chart_clamp_cursor_inv (n c : Int) (hn : 0 ≤ n) :
    -1 ≤ chart_clamp_cursor n c ∧ chart_clamp_cursor n c < n ∧
      (chart_clamp_cursor n c = -1 ↔ n = 0) := by
  simp only [chart_clamp_cursor]
  split_ifs <;> omega

theorem chart_restore_cursor_loop_range (ts : Nat) (pts : List PricePoint) :
    ∀ i : Int, chart_restore_cursor_loop ts pts i = -1 ∨
      (i ≤ chart_restore_cursor_loop ts pts i ∧
        chart_restore_cursor_loop ts pts i < i + (pts.length : Int)) := by
  induction pts with
  | nil => intro i; left; rfl
  | cons p rest ih =>
      intro i
      simp only [chart_restore_cursor_loop, List.length_cons]
      split_ifs with h
      · right
        push_cast
        omega
      · rcases ih (i + 1) with h1 | ⟨h1, h2⟩
        · left; exact h1
        · right
          push_cast
          omega

/-- `chart_restore_cursor_by_timestamp` returns `-1` or a valid index. -/
theorem chart_restore_cursor_by_timestamp_range (pts : List PricePoint) (ts : Nat) :
    chart_restore_cursor_by_timestamp pts ts = -1 ∨
      (0 ≤ chart_restore_cursor_by_timestamp pts ts ∧
        chart_restore_cursor_by_timestamp pts ts < (pts.length : Int)) := by
  unfold chart_restore_cursor_by_timestamp
  split_ifs with h
  · left; rfl
  · simpa using chart_restore_cursor_loop_range ts pts 0

/-- `chart_change_period` preserves the cursor invariant. -/
theorem chart_change_period_inv (step : Int) (fetch : Option (List PricePoint))
    (s : ChartState) (h : ChartCursorInv s) :
    ChartCursorInv (chart_change_period step fetch s) := by
  cases fetch with
  | none => exact h
  | some new_points =>
      have hc := chart_clamp_cursor_inv (new_points.length : Int) s.chart_cursor_idx
        (Int.natCast_nonneg _)
      simp only [chart_change_period, ChartCursorInv, ChartState.chart_count] at *
      omega

/-- `chart_refresh_if_expired` preserves the cursor invariant. -/
theorem chart_refresh_if_expired_inv (now : Nat) (fetch : Option (List PricePoint))
    (s : ChartState) (h : ChartCursorInv s) :
    ChartCursorInv (chart_refresh_if_expired now fetch s) := by
  simp only [chart_refresh_if_expired]
  by_cases hg : s.chart_symbol = "" ∨ s.chart_points = [] ∨ s.chart_count ≤ 0
  · rw [if_pos hg]; exact h
  · rw [if_neg hg]
    cases hl : s.chart_points.getLast? with
    | none => exact h
    | some l =>
        dsimp only
        by_cases ht : now < l.close_time
        · rw [if_pos ht]; exact h
        · rw [if_neg ht]
          cases fetch with
          | none => exact h
          | some new_points =>
              have hr := chart_restore_cursor_by_timestamp_range new_points
                ((s.chart_points.getD s.chart_cursor_idx.toNat dummyPoint).timestamp)
              simp only [ChartCursorInv, ChartState.chart_count] at *
              split_ifs <;> dsimp only <;> simp_all <;> omega

/-- `chart_force_refresh` preserves the cursor invariant. -/
theorem chart_force_refresh_inv (fetch : Option (List PricePoint)) (follow : Bool)
    (s : ChartState) (h : ChartCursorInv s) :
    ChartCursorInv (chart_force_refresh fetch follow s) := by
  simp only [chart_force_refresh]
  by_cases hg : s.chart_symbol = ""
  · rw [if_pos hg]; exact h
  · rw [if_neg hg]
    cases fetch with
    | none => exact h
    | some new_points =>
        have hr := chart_restore_cursor_by_timestamp_range new_points
          ((s.chart_points.getD s.chart_cursor_idx.toNat dummyPoint).timestamp)
        simp only [ChartCursorInv, ChartState.chart_count] at *
        split_ifs <;> dsimp only <;> simp_all <;> omega

/-- `priceboard_open_chart` (chart open plus the `show_chart` write at the
call site) preserves the cursor invariant. -/
theorem priceboard_open_chart_inv (tickers : List TickerData) (symbol_index : Int)
    (fetch : Option (List PricePoint)) (s : ChartState) (h : ChartCursorInv s) :
    ChartCursorInv (priceboard_open_chart tickers symbol_index fetch s) := by
  simp only [priceboard_open_chart, chart_open]
  by_cases hvalid : (tickers.length : Int) ≤ 0 ∨ symbol_index < 0 ∨
      symbol_index ≥ (tickers.length : Int)
  · rw [if_pos hvalid]
    simpa only [ChartCursorInv, ChartState.chart_count] using h
  · rw [if_neg hvalid]
    cases fetch with
    | none => simpa only [ChartCursorInv, ChartState.chart_count] using h
    | some new_points =>
        simp only [ChartCursorInv, ChartState.chart_count] at *
        split_ifs <;> dsimp only <;> simp_all

/-- `chart_handle_input` preserves the cursor invariant for every key. -/
theorem chart_handle_input_inv (ch : Int) (fetch : Option (List PricePoint))
    (s : ChartState) (h : ChartCursorInv s) :
    ChartCursorInv (chart_handle_input ch fetch s) := by
  have hclamp := fun c => chart_clamp_cursor_inv s.chart_count c
    (Int.natCast_nonneg _)
  simp only [chart_handle_input]
  split_ifs with h1 h2 h3 h4 h5 h6 h7 h8 h9 h10
  · exact chart_change_period_inv _ _ _ h
  · exact chart_change_period_inv _ _ _ h
  · have := hclamp (s.chart_cursor_idx - 1)
    simp only [ChartCursorInv, ChartState.chart_count] at *
    omega
  · exact h
  · have := hclamp (s.chart_cursor_idx + 1)
    simp only [ChartCursorInv, ChartState.chart_count] at *
    omega
  · exact h
  · simp only [ChartCursorInv, ChartState.chart_count] at *
    omega
  · exact h
  · exact chart_force_refresh_inv _ _ _ h
  · simp [ChartCursorInv, ChartState.chart_count, chart_close]
  · exact h

/-- `chart_handle_mouse` preserves the cursor invariant for every event. -/
theorem chart_handle_mouse_inv (ev : ChartMouseEvent)
    (fetch : Option (List PricePoint)) (s : ChartState) (h : ChartCursorInv s) :
    ChartCursorInv (chart_handle_mouse ev fetch s) := by
  cases ev with
  | button3 => exact chart_handle_input_inv 27 fetch s h
  | button4 => exact chart_change_period_inv _ _ _ h
  | button5 => exact chart_change_period_inv _ _ _ h
  | button1 hit_index =>
      simp only [chart_handle_mouse]
      split_ifs with h1
      · have := chart_clamp_cursor_inv s.chart_count hit_index (Int.natCast_nonneg _)
        simp only [ChartCursorInv, ChartState.chart_count] at *
        omega
      · exact h

/-- **C5** (confirmed): every chart operation — open, close, cursor move,
period change, follow toggle, force refresh, auto refresh, and mouse hit —
preserves the cursor invariant `-1 ≤ cursor < len(candles)` with
`cursor = -1` iff the buffer is empty. -/
theorem chart_step_cursor_invariant (op : ChartOp) (s : ChartState)
    (h : ChartCursorInv s) : ChartCursorInv (chart_step op s) := by
  cases op with
  | opOpen tickers symbol_index fetch => exact priceboard_open_chart_inv _ _ _ _ h
  | opKey ch fetch => exact chart_handle_input_inv _ _ _ h
  | opMouse ev fetch => exact chart_handle_mouse_inv _ _ _ h
  | opAutoRefresh now fetch => exact chart_refresh_if_expired_inv _ _ _ h

/-- Witness for the C5 theorem: a LEFT key press on the scenario-D state
(5 candles, cursor 2). -/
theorem chart_step_cursor_invariant_witness :
    ChartCursorInv chartD ∧ ChartCursorInv (chart_step (.opKey 260 none) chartD) :=
  ⟨by decide, chart_step_cursor_invariant (.opKey 260 none) chartD (by decide)⟩

theorem fetch_all_symbols_scratch_getD (results : List (Option TickerData))
    (scratch : List TickerData) (i : Nat) (hlen : scratch.length = results.length)
    (hi : i < results.length) :
    (fetch_all_symbols results scratch).1.getD i dummyTicker =
      (results.getD i none).getD (scratch.getD i dummyTicker) := by
  induction results generalizing scratch i with
  | nil => simp at hi
  | cons r rs ih =>
      cases scratch with
      | nil => simp at hlen
      | cons sc scs =>
          simp only [fetch_all_symbols]
          cases r with
          | some d =>
              cases i with
              | zero => simp
              | succ j =>
                  simp only [List.getD_cons_succ]
                  exact ih scs j (by simpa using hlen) (by simpa using hi)
          | none =>
              cases i with
              | zero => simp
              | succ j =>
                  simp only [List.getD_cons_succ]
                  exact ih scs j (by simpa using hlen) (by simpa using hi)

theorem fetch_all_symbols_updated_getD (results : List (Option TickerData))
    (scratch : List TickerData) (i : Nat) (hlen : scratch.length = results.length)
    (hi : i < results.length) :
    (fetch_all_symbols results scratch).2.1.getD i false =
      (results.getD i none).isSome := by
  induction results generalizing scratch i with
  | nil => simp at hi
  | cons r rs ih =>
      cases scratch with
      | nil => simp at hlen
      | cons sc scs =>
          simp only [fetch_all_symbols]
          cases r with
          | some d =>
              cases i with
              | zero => simp
              | succ j =>
                  simp only [List.getD_cons_succ]
                  exact ih scs j (by simpa using hlen) (by simpa using hi)
          | none =>
              cases i with
              | zero => simp
              | succ j =>
                  simp only [List.getD_cons_succ]
                  exact ih scs j (by simpa using hlen) (by simpa using hi)

theorem fetch_all_symbols_had_failure (results : List (Option TickerData))
    (scratch : List TickerData) (hlen : scratch.length = results.length) :
    ((fetch_all_symbols results scratch).2.2 = true ↔ none ∈ results) := by
  induction results generalizing scratch with
  | nil => simp [fetch_all_symbols]
  | cons r rs ih =>
      cases scratch with
      | nil => simp at hlen
      | cons sc scs =>
          simp only [fetch_all_symbols]
          cases r with
          | some d =>
              simp only [List.mem_cons, reduceCtorEq, false_or]
              exact ih scs (by simpa using hlen)
          | none => simp

theorem fetch_all_symbols_lengths (results : List (Option TickerData))
    (scratch : List TickerData) (hlen : scratch.length = results.length) :
    (fetch_all_symbols results scratch).1.length = results.length ∧
      (fetch_all_symbols results scratch).2.1.length = results.length := by
  induction results generalizing scratch with
  | nil => simp [fetch_all_symbols]
  | cons r rs ih =>
      cases scratch with
      | nil => simp at hlen
      | cons sc scs =>
          have := ih scs (by simpa using hlen)
          simp only [fetch_all_symbols]
          cases r <;> simp [this.1, this.2]

theorem apply_updated_tickers_getD (global scratch : List TickerData)
    (upd : List Bool) (i : Nat)
    (hs : scratch.length = global.length) (hu : upd.length = global.length)
    (hi : i < global.length) :
    (apply_updated_tickers global scratch upd).getD i dummyTicker =
      if upd.getD i false = true then scratch.getD i dummyTicker
      else global.getD i dummyTicker := by
  induction global generalizing scratch upd i with
  | nil => simp at hi
  | cons g gs ih =>
      cases scratch with
      | nil => simp at hs
      | cons sc scs =>
          cases upd with
          | nil => simp at hu
          | cons u us =>
              simp only [apply_updated_tickers]
              cases i with
              | zero => cases u <;> simp
              | succ j =>
                  simp only [List.getD_cons_succ]
                  exact ih scs us j (by simpa using hs) (by simpa using hu)
                    (by simpa using hi)

theorem apply_updated_tickers_length (global scratch : List TickerData)
    (upd : List Bool) :
    (apply_updated_tickers global scratch upd).length = global.length := by
  induction global generalizing scratch upd with
  | nil => simp [apply_updated_tickers]
  | cons g gs ih =>
      cases scratch with
      | nil => simp [apply_updated_tickers]
      | cons sc scs =>
          cases upd with
          | nil => simp [apply_updated_tickers]
          | cons u us => simp [apply_updated_tickers, ih scs us]

/-- **C9** (confirmed): in a fetch cycle with per-symbol outcomes
`results` (lengths matching the shared table and scratch buffer), after
the locked publish step the `i`-th published row holds the newly fetched
data exactly when fetch `i` succeeded (and the updated bit is set exactly
then), every row whose fetch failed is unchanged from before the cycle,
the row count is preserved, and the cycle ends in NetworkError iff at
least one symbol's fetch failed. -/
theorem fetcher_cycle_frame (results : List (Option TickerData))
    (global scratch : List TickerData) (i : Nat)
    (hg : global.length = results.length) (hs : scratch.length = results.length)
    (hi : i < results.length) :
    ((fetcher_cycle results global scratch).1.getD i dummyTicker =
      (results.getD i none).getD (global.getD i dummyTicker)) ∧
    ((fetch_all_symbols results scratch).2.1.getD i false =
      (results.getD i none).isSome) ∧
    ((fetcher_cycle results global scratch).2 = .STATUS_PANEL_NETWORK_ERROR ↔
      none ∈ results) ∧
    (fetcher_cycle results global scratch).1.length = global.length := by
  have hlens := fetch_all_symbols_lengths results scratch hs
  have hupd := fetch_all_symbols_updated_getD results scratch i hs hi
  have hscr := fetch_all_symbols_scratch_getD results scratch i hs hi
  refine ⟨?_, hupd, ?_, ?_⟩
  · have happ := apply_updated_tickers_getD global
      (fetch_all_symbols results scratch).1 (fetch_all_symbols results scratch).2.1 i
      (by omega) (by omega) (by omega)
    simp only [fetcher_cycle]
    rw [happ, hupd, hscr]
    cases hr : results.getD i none with
    | none => simp
    | some d => simp
  · simp only [fetcher_cycle]
    rw [← fetch_all_symbols_had_failure results scratch hs]
    by_cases hb : (fetch_all_symbols results scratch).2.2 = true
    · simp [hb]
    · simp [hb]
  · simp only [fetcher_cycle]
    exact apply_updated_tickers_length _ _ _

/-- Witness for the C9 theorem: scenario E — three symbols, the second
fetch fails; the published second row keeps its pre-cycle value, its
updated bit is clear, and the cycle status is NetworkError. -/
theorem fetcher_cycle_frame_witness :
    (([tickerRowEqA, dummyTicker, tickerRowEqB] : List TickerData).length =
        ([some tickerRowEqB, none, some tickerRowEqA] :
          List (Option TickerData)).length ∧
      (1 : Nat) < ([some tickerRowEqB, none, some tickerRowEqA] :
        List (Option TickerData)).length) ∧
    ((fetcher_cycle [some tickerRowEqB, none, some tickerRowEqA]
        [tickerRowEqA, dummyTicker, tickerRowEqB]
        [tickerRowEqB, tickerRowEqB, tickerRowEqB]).1.getD 1 dummyTicker =
      (([some tickerRowEqB, none, some tickerRowEqA] :
          List (Option TickerData)).getD 1 none).getD
        (([tickerRowEqA, dummyTicker, tickerRowEqB] :
          List TickerData).getD 1 dummyTicker)) ∧
    ((fetch_all_symbols [some tickerRowEqB, none, some tickerRowEqA]
        [tickerRowEqB, tickerRowEqB, tickerRowEqB]).2.1.getD 1 false =
      (([some tickerRowEqB, none, some tickerRowEqA] :
          List (Option TickerData)).getD 1 none).isSome) ∧
    ((fetcher_cycle [some tickerRowEqB, none, some tickerRowEqA]
        [tickerRowEqA, dummyTicker, tickerRowEqB]
        [tickerRowEqB, tickerRowEqB, tickerRowEqB]).2 =
        .STATUS_PANEL_NETWORK_ERROR ↔
      none ∈ ([some tickerRowEqB, none, some tickerRowEqA] :
        List (Option TickerData))) ∧
    (fetcher_cycle [some tickerRowEqB, none, some tickerRowEqA]
        [tickerRowEqA, dummyTicker, tickerRowEqB]
        [tickerRowEqB, tickerRowEqB, tickerRowEqB]).1.length =
      ([tickerRowEqA, dummyTicker, tickerRowEqB] : List TickerData).length := by
  have h := fetcher_cycle_frame [some tickerRowEqB, none, some tickerRowEqA]
    [tickerRowEqA, dummyTicker, tickerRowEqB]
    [tickerRowEqB, tickerRowEqB, tickerRowEqB] 1
    (by decide) (by decide) (by decide)
  exact ⟨⟨by decide, by decide⟩, h.1, h.2.1, h.2.2.1, h.2.2.2⟩

end CTicker

